import Mathlib

/-!
Verification of the nssm-rs service wrapper (shallow embedding).

The definitions below are translated from the Rust sources:
  * `src/cli.rs`              — `ServiceConfig`, `ProcessPriority`, `ExitAction` and defaults
  * `src/service_manager.rs`  — registry-backed `save_service_config` / `load_service_config`
  * `src/service_runner.rs`   — the supervisor loop, the stop ladder, `parse_command_line`,
                                the environment-extra handling

Strings are modelled as Lean `String`s (registry values, paths) or `List Char`
(character-by-character scanners).  Machine integers (`u32`) are modelled as `Nat`;
child exit codes (`i32` in Rust) are modelled as `Int` with the `as u32` cast made
explicit (`% 2^32`).  Registry value names form a fixed known set and are modelled
by the enumeration `RegName`.
-/

namespace NssmRs

/-- Mirrors `ServiceStartType` in `src/cli.rs`. -/
inductive ServiceStartType
  | Auto | Manual | Disabled
deriving DecidableEq, Repr

/-- Mirrors `ProcessPriority` in `src/cli.rs`. -/
inductive ProcessPriority
  | Realtime | High | AboveNormal | Normal | BelowNormal | Idle
deriving DecidableEq, Repr

/-- Mirrors `ExitAction` in `src/cli.rs`. -/
inductive ExitAction
  | Restart | Ignore | Exit
deriving DecidableEq, Repr

/-- Mirrors `ProcessPriority::to_windows_value` in `src/cli.rs`. -/
def ProcessPriority.to_windows_value : ProcessPriority → Nat
  | .Realtime => 0x00000100
  | .High => 0x00000080
  | .AboveNormal => 0x00008000
  | .Normal => 0x00000020
  | .BelowNormal => 0x00004000
  | .Idle => 0x00000040

/-- ASCII uppercase of one character (Rust's `to_uppercase` restricted to the
ASCII range, which covers every string compared by `from_str`). -/
def char_to_upper (c : Char) : Char :=
  if 'a' ≤ c ∧ c ≤ 'z' then Char.ofNat (c.toNat - 32) else c

/-- ASCII uppercase of a string. -/
def str_to_upper (s : String) : String := ⟨s.data.map char_to_upper⟩

/-- Mirrors `ExitAction::from_str` in `src/cli.rs` (uppercase comparison). -/
def ExitAction.from_str (s : String) : Option ExitAction :=
  match str_to_upper s with
  | "RESTART" => some .Restart
  | "IGNORE" => some .Ignore
  | "EXIT" => some .Exit
  | _ => none

/-- Mirrors `ExitAction::to_str` in `src/cli.rs`. -/
def ExitAction.to_str : ExitAction → String
  | .Restart => "Restart"
  | .Ignore => "Ignore"
  | .Exit => "Exit"

/-- The fields of `ServiceConfig` (`src/cli.rs`) that the supervisor and the
registry persistence use.  Paths are modelled as strings. -/
structure ServiceConfig where
  application : String
  app_directory : Option String
  app_parameters : Option String
  app_priority : ProcessPriority
  app_no_console : Bool
  app_stop_method_skip : Nat
  app_stop_method_console : Nat
  app_stop_method_window : Nat
  app_stop_method_threads : Nat
  app_throttle : Nat
  app_exit_default : ExitAction
  app_restart_delay : Nat
  app_stdout : Option String
  app_stderr : Option String
  app_stdin : Option String
deriving DecidableEq, Repr

/-- Mirrors `impl Default for ServiceConfig` in `src/cli.rs`
(`PathBuf::new()` is the empty path). -/
def default_config : ServiceConfig :=
  { application := ""
    app_directory := none
    app_parameters := none
    app_priority := .Normal
    app_no_console := false
    app_stop_method_skip := 0
    app_stop_method_console := 1500
    app_stop_method_window := 1500
    app_stop_method_threads := 1500
    app_throttle := 1500
    app_exit_default := .Restart
    app_restart_delay := 0
    app_stdout := none
    app_stderr := none
    app_stdin := none }

/-! ## Command-line splitting (`parse_command_line`, `src/service_runner.rs` lines 595-625) -/

/-- The scanning loop of `parse_command_line`: state is the remaining input,
the `in_quotes` flag, the accumulating `current_arg` and the tokens pushed so
far (`args`).  Translated clause-by-clause from the `for ch in chars` loop. -/
def parse_command_line_go : List Char → Bool → List Char → List (List Char) → List (List Char)
  | [], _, current, args => if current = [] then args else args ++ [current]
  | c :: rest, in_quotes, current, args =>
    if c = '"' then
      parse_command_line_go rest (!in_quotes) current args
    else if c = ' ' ∨ c = '\t' then
      if in_quotes then
        parse_command_line_go rest in_quotes (current ++ [c]) args
      else if current = [] then
        parse_command_line_go rest in_quotes [] args
      else
        parse_command_line_go rest in_quotes [] (args ++ [current])
    else
      parse_command_line_go rest in_quotes (current ++ [c]) args

/-- Mirrors `parse_command_line` in `src/service_runner.rs`. -/
def parse_command_line (input : List Char) : List (List Char) :=
  parse_command_line_go input false [] []

/-- Modelled from the spec's description of the quoting split (spec section 4.B):
scan left-to-right, a double-quote toggles in-quotes mode, a space or tab outside
quotes terminates the current token, other characters accumulate; finally empty
tokens are dropped.  Used only to compare against `parse_command_line`. -/
def parse_command_line_spec_go : List Char → Bool → List Char → List (List Char) → List (List Char)
  | [], _, current, args => args ++ [current]
  | c :: rest, in_quotes, current, args =>
    if c = '"' then
      parse_command_line_spec_go rest (!in_quotes) current args
    else if (c = ' ' ∨ c = '\t') ∧ in_quotes = false then
      parse_command_line_spec_go rest in_quotes [] (args ++ [current])
    else
      parse_command_line_spec_go rest in_quotes (current ++ [c]) args

/-- The spec-described split: emit every token boundary, then drop empty tokens. -/
def parse_command_line_from_spec (input : List Char) : List (List Char) :=
  (parse_command_line_spec_go input false [] []).filter (fun t => !t.isEmpty)

/-! ## Registry persistence (`src/service_manager.rs`) -/

/-- The registry value names used by `save_service_config` / `load_service_config`
(`src/service_manager.rs`).  They form a fixed known set, modelled as an
enumeration; each constructor stands for the string value name of the same
spelling. -/
inductive RegName
  | Application | AppDirectory | AppParameters | AppPriority | AppNoConsole
  | AppThrottle | AppStopMethodSkip | AppStopMethodConsole | AppStopMethodWindow
  | AppStopMethodThreads | AppRestartDelay | AppExitDefault
  | AppStdout | AppStderr | AppStdin
deriving DecidableEq, Repr

/-- A registry value: `REG_SZ` or `REG_DWORD` (`set_registry_string` /
`set_registry_dword` write exactly these two kinds). -/
inductive RegValue
  | str (s : String)
  | dword (n : Nat)
deriving DecidableEq, Repr

/-- The contents of a service's `Parameters` registry key; an absent key is
modelled as `none` at the use sites. -/
def RegKey := List (RegName × RegValue)

/-- `RegSetValueExW`: overwrite-or-create a value under the key.  Lookup is
first-match, so prepending implements overwrite. -/
def regSet (k : RegKey) (name : RegName) (v : RegValue) : RegKey :=
  (name, v) :: k

/-- First-match lookup of a value name under a key (`RegQueryValueExW` hit/miss). -/
def regFind : RegKey → RegName → Option RegValue
  | [], _ => none
  | (n, v) :: rest, name => if n = name then some v else regFind rest name

/-- Mirrors `get_registry_string` (`src/service_manager.rs`): succeeds only when
the value exists (and, in this model, holds string data). -/
def get_registry_string (k : RegKey) (name : RegName) : Except String String :=
  match regFind k name with
  | some (.str s) => .ok s
  | _ => .error "Failed to get registry string value"

/-- Mirrors `get_registry_dword` (`src/service_manager.rs`). -/
def get_registry_dword (k : RegKey) (name : RegName) : Except String Nat :=
  match regFind k name with
  | some (.dword n) => .ok n
  | _ => .error "Failed to get registry DWORD value"

/-- Mirrors `save_service_config` (`src/service_manager.rs` lines 345-406):
`Application` is always written; the optional string fields are written only
when present; the numeric settings are written as DWORDs; `AppExitDefault` is
written as its string form. -/
def save_service_config (k0 : RegKey) (config : ServiceConfig) : RegKey :=
  let k := regSet k0 .Application (.str config.application)
  let k := match config.app_directory with
           | some d => regSet k .AppDirectory (.str d)
           | none => k
  let k := match config.app_parameters with
           | some p => regSet k .AppParameters (.str p)
           | none => k
  let k := regSet k .AppPriority (.dword config.app_priority.to_windows_value)
  let k := regSet k .AppNoConsole (.dword (if config.app_no_console then 1 else 0))
  let k := regSet k .AppThrottle (.dword config.app_throttle)
  let k := regSet k .AppStopMethodSkip (.dword config.app_stop_method_skip)
  let k := regSet k .AppStopMethodConsole (.dword config.app_stop_method_console)
  let k := regSet k .AppStopMethodWindow (.dword config.app_stop_method_window)
  let k := regSet k .AppStopMethodThreads (.dword config.app_stop_method_threads)
  let k := regSet k .AppRestartDelay (.dword config.app_restart_delay)
  let k := regSet k .AppExitDefault (.str config.app_exit_default.to_str)
  let k := match config.app_stdout with
           | some p => regSet k .AppStdout (.str p)
           | none => k
  let k := match config.app_stderr with
           | some p => regSet k .AppStderr (.str p)
           | none => k
  match config.app_stdin with
  | some p => regSet k .AppStdin (.str p)
  | none => k

/-- The `AppPriority` DWORD decoding in `load_service_config`
(`src/service_manager.rs` lines 448-458); unknown values fall back to `Normal`. -/
def priority_of_dword (n : Nat) : ProcessPriority :=
  if n = 0x00000100 then .Realtime
  else if n = 0x00000080 then .High
  else if n = 0x00008000 then .AboveNormal
  else if n = 0x00000020 then .Normal
  else if n = 0x00004000 then .BelowNormal
  else if n = 0x00000040 then .Idle
  else .Normal

/-- The body of `load_service_config` after the key has been opened
(`src/service_manager.rs` lines 426-514): start from the default config and set
each field whose value is present (strings additionally only when non-empty;
`AppExitDefault` only when it parses).  Each field is written at most once, so
the sequential mutation of the source is rendered as one record. -/
def load_from_key (k : RegKey) : ServiceConfig :=
  { application := match get_registry_string k .Application with
      | .ok s => s
      | .error _ => default_config.application
    app_directory := match get_registry_string k .AppDirectory with
      | .ok s => if s = "" then default_config.app_directory else some s
      | .error _ => default_config.app_directory
    app_parameters := match get_registry_string k .AppParameters with
      | .ok s => if s = "" then default_config.app_parameters else some s
      | .error _ => default_config.app_parameters
    app_priority := match get_registry_dword k .AppPriority with
      | .ok n => priority_of_dword n
      | .error _ => default_config.app_priority
    app_no_console := match get_registry_dword k .AppNoConsole with
      | .ok n => decide (n ≠ 0)
      | .error _ => default_config.app_no_console
    app_throttle := match get_registry_dword k .AppThrottle with
      | .ok n => n
      | .error _ => default_config.app_throttle
    app_stop_method_skip := match get_registry_dword k .AppStopMethodSkip with
      | .ok n => n
      | .error _ => default_config.app_stop_method_skip
    app_stop_method_console := match get_registry_dword k .AppStopMethodConsole with
      | .ok n => n
      | .error _ => default_config.app_stop_method_console
    app_stop_method_window := match get_registry_dword k .AppStopMethodWindow with
      | .ok n => n
      | .error _ => default_config.app_stop_method_window
    app_stop_method_threads := match get_registry_dword k .AppStopMethodThreads with
      | .ok n => n
      | .error _ => default_config.app_stop_method_threads
    app_restart_delay := match get_registry_dword k .AppRestartDelay with
      | .ok n => n
      | .error _ => default_config.app_restart_delay
    app_exit_default := match get_registry_string k .AppExitDefault with
      | .ok s => match ExitAction.from_str s with
          | some a => a
          | none => default_config.app_exit_default
      | .error _ => default_config.app_exit_default
    app_stdout := match get_registry_string k .AppStdout with
      | .ok s => if s = "" then default_config.app_stdout else some s
      | .error _ => default_config.app_stdout
    app_stderr := match get_registry_string k .AppStderr with
      | .ok s => if s = "" then default_config.app_stderr else some s
      | .error _ => default_config.app_stderr
    app_stdin := match get_registry_string k .AppStdin with
      | .ok s => if s = "" then default_config.app_stdin else some s
      | .error _ => default_config.app_stdin }

/-- Mirrors `load_service_config` (`src/service_manager.rs` lines 408-516): the
only failure is the key failing to open (`store = none`); with the key open,
every value is read best-effort and the call always succeeds. -/
def load_service_config (service_name : String) (store : Option RegKey) :
    Except String ServiceConfig :=
  match store with
  | none => .error ("Failed to open registry key for service '" ++ service_name ++ "'")
  | some k => .ok (load_from_key k)

/-! ## Supervisor loop (`run_service_main`, `src/service_runner.rs` lines 65-367) -/

/-- `ServiceExitCode` of the `windows_service` crate as used by the runner:
`NO_ERROR` or `ServiceSpecific(u32)`. -/
inductive SvcExitCode
  | noError
  | serviceSpecific (c : Nat)
deriving DecidableEq, Repr

/-- The Rust `exit_code as u32` cast applied to an `i32` child exit code. -/
def u32_of_exit (c : Int) : Nat := (c % 4294967296).toNat

/-- Lines 296-300 of `src/service_runner.rs`: the service exit code published
for a child that exited with code `c`. -/
def exit_code_of (c : Int) : SvcExitCode :=
  if c = 0 then .noError else .serviceSpecific (u32_of_exit c)

/-- Mirrors `should_restart` (`src/service_runner.rs` lines 380-386); the exit
code parameter is ignored by the source. -/
def should_restart (_exit_code : Int) (exit_action : ExitAction) : Bool :=
  match exit_action with
  | .Restart => true
  | .Ignore => false
  | .Exit => false

/-- Lines 303-312 of `src/service_runner.rs`: given the current
`consecutive_failures` counter and the child's runtime in ms, return the
updated counter and the restart delay in ms. -/
def throttle_update (config : ServiceConfig) (consecutive_failures runtimeMs : Nat) :
    Nat × Nat :=
  if runtimeMs < config.app_throttle then
    let cf := consecutive_failures + 1
    (cf, min (2 ^ min cf 8 * 1000) 256000)
  else
    (0, config.app_restart_delay)

/-- Line 191 of `src/service_runner.rs`: stdout/stderr are piped (and the two
tailer threads started) exactly when a redirection target is configured. -/
def tailers_piped (config : ServiceConfig) : Bool :=
  config.app_stdout.isSome || config.app_stderr.isSome

/-- Observable actions of one invocation of `run_service_main`, in program
order: SCM status publications, child spawn, tailer-thread start and join, and
the reap of the child (`try_wait` observing the exit, or the final `wait` of
the stop ladder). -/
inductive Obs
  | publishRunning
  | publishStopPending
  | publishStopped (code : SvcExitCode)
  | spawnChild
  | startTailers
  | reapChild
  | joinTailers
deriving DecidableEq, Repr

/-- The decisive external event of one loop iteration: the first thing the
monitoring loop observes after the spawn attempt (shutdown signal, child exit
with code and runtime, termination without code, probe error), or a failed
spawn.  A `shutdown` step hitting an iteration that starts in backoff is the
signal arriving during the restart delay. -/
inductive Step
  | shutdown
  | childExit (code : Int) (uptimeMs : Nat)
  | childTerm
  | spawnFail
  | probeErr
deriving DecidableEq, Repr

/-- Why the `'outer` loop was left (the five `break 'outer` sites of
`run_service_main`). -/
inductive ExitReason
  | shutdownMonitoring
  | shutdownBackoff
  | spawnFailed
  | noRestart
  | probeFailed
deriving DecidableEq, Repr

/-- The supervisor's mutable locals (`src/service_runner.rs` lines 69, 141-142):
`restart_after` holds the pending restart delay (only ever a positive delay, the
source stores `None` for zero), `consecutive_failures`, and the current
`service_exit_code`. -/
structure SupState where
  restart_after : Option Nat
  consecutive_failures : Nat
  service_exit_code : SvcExitCode
deriving DecidableEq, Repr

/-- Result of one `'outer` iteration: continue with a new state, or leave the
loop with a reason and the final `service_exit_code`; either way the iteration
emitted the listed observations. -/
inductive IterOut
  | next (st : SupState) (obs : List Obs)
  | stopped (reason : ExitReason) (code : SvcExitCode) (obs : List Obs)
deriving DecidableEq, Repr

/-- Observations of an iteration that spawned a child, up to the decisive event. -/
def spawn_obs (config : ServiceConfig) : List Obs :=
  Obs.spawnChild :: (if tailers_piped config then [Obs.startTailers] else [])

/-- The `break 'inner` path joins the tailer threads (lines 344-350); the
`break 'outer` paths do not reach that code. -/
def join_obs (config : ServiceConfig) : List Obs :=
  if tailers_piped config then [Obs.joinTailers] else []

/-- The body of one `'outer` iteration after the backoff check, translated from
`src/service_runner.rs` lines 168-350: spawn (may fail, line 207-214), then the
decisive event of the `'inner` monitoring loop (lines 259-342), then — only on
`break 'inner` — the tailer joins (lines 344-350). -/
def loopBody (config : ServiceConfig) (st : SupState) : Step → IterOut
  | .spawnFail =>
      .stopped .spawnFailed (.serviceSpecific 1) []
  | .shutdown =>
      .stopped .shutdownMonitoring .noError
        (spawn_obs config ++ [Obs.publishStopPending, Obs.reapChild])
  | .childExit c u =>
      if should_restart c config.app_exit_default then
        let p := throttle_update config st.consecutive_failures u
        .next
          { restart_after := if 0 < p.2 then some p.2 else none
            consecutive_failures := p.1
            service_exit_code := exit_code_of c }
          (spawn_obs config ++ [Obs.reapChild] ++ join_obs config)
      else
        .stopped .noRestart (exit_code_of c)
          (spawn_obs config ++ [Obs.reapChild])
  | .childTerm =>
      .next
        { restart_after := if 0 < config.app_throttle then some config.app_throttle else none
          consecutive_failures := st.consecutive_failures
          service_exit_code := .serviceSpecific 259 }
        (spawn_obs config ++ [Obs.reapChild] ++ join_obs config)
  | .probeErr =>
      .stopped .probeFailed (.serviceSpecific 1) (spawn_obs config)

/-- One `'outer` iteration including the backoff check at its head
(`src/service_runner.rs` lines 149-166): while a restart delay is pending, a
shutdown signal cancels the restart (`break 'outer` at line 158) without
touching `service_exit_code`; any other event means the delay elapsed and the
iteration proceeds. -/
def loopIter (config : ServiceConfig) (st : SupState) (step : Step) : IterOut :=
  match st.restart_after with
  | some _ =>
    match step with
    | .shutdown => .stopped .shutdownBackoff st.service_exit_code []
    | s => loopBody config { st with restart_after := none } s
  | none => loopBody config st step

/-- The `'outer` loop driven by a script of decisive events; returns the
accumulated observations and, when the loop was left within the script,
the exit reason and final code.  `none` means the supervision is still
running when the script ends. -/
def runLoop (config : ServiceConfig) :
    SupState → List Step → List Obs × Option (ExitReason × SvcExitCode)
  | _, [] => ([], none)
  | st, step :: rest =>
    match loopIter config st step with
    | .next st2 obs =>
        let r := runLoop config st2 rest
        (obs ++ r.1, r.2)
    | .stopped reason code obs => (obs, some (reason, code))

/-- `run_service_main` after a successful config load: publish `Running`
(line 120), run the loop from the initial state (`restart_after = None`,
`consecutive_failures = 0`, `service_exit_code = NO_ERROR`), and publish
`Stopped` with the final `service_exit_code` (line 356). -/
def run_service_main (config : ServiceConfig) (script : List Step) :
    List Obs × Option (ExitReason × SvcExitCode) :=
  let r := runLoop config ⟨none, 0, .noError⟩ script
  match r.2 with
  | some (reason, code) =>
      (Obs.publishRunning :: r.1 ++ [Obs.publishStopped code], some (reason, code))
  | none => (Obs.publishRunning :: r.1, none)

/-- The entry logic of `run_service_main` around the config load (lines
101-128): a load failure is returned before any status is published; on
success the supervision runs. -/
def service_main_model (service_name : String) (store : Option RegKey)
    (script : List Step) :
    Except String (List Obs × Option (ExitReason × SvcExitCode)) :=
  match load_service_config service_name store with
  | .error e => .error e
  | .ok config => .ok (run_service_main config script)

/-! ## Stop ladder (`stop_child_process`, `src/service_runner.rs` lines 388-515) -/

/-- The OS interactions of the stop ladder, one marker per stage's call plus
the reap of the child (`try_wait` observing the exit inside a polled wait, or
the final `child.wait()`). -/
inductive OsCall
  | ctrlC
  | wmClose
  | terminate
  | kill
  | reap
deriving DecidableEq, Repr

/-- A stage's polled wait (e.g. lines 414-426): while the elapsed time is below
the timeout, probe the child and sleep 50 ms; returns whether the child is
still running together with the elapsed time consumed.  `running t` tells
whether the child is still alive `t` ms into this model's global clock; `base`
is the clock at the start of this wait.  The fuel argument only bounds the
recursion and is chosen large enough never to run out. -/
def poll_wait_go (running : Nat → Bool) (timeout base : Nat) : Nat → Nat → Bool × Nat
  | 0, elapsed => (true, elapsed)
  | fuel + 1, elapsed =>
    if elapsed < timeout then
      if running (base + elapsed) then poll_wait_go running timeout base fuel (elapsed + 50)
      else (false, elapsed)
    else (true, elapsed)

/-- A stage's polled wait for `timeout` ms starting at global time `base`. -/
def poll_wait (running : Nat → Bool) (timeout base : Nat) : Bool × Nat :=
  poll_wait_go running timeout base (timeout / 50 + 1) 0

/-- Stage 4 of the stop ladder (lines 504-513): kill unless bit 8 is set, then
reap unconditionally. -/
def stop_stage4 (config : ServiceConfig) (calls : List OsCall) (t : Nat) :
    List OsCall × Nat :=
  if config.app_stop_method_skip &&& 8 = 0 then
    (calls ++ [OsCall.kill, OsCall.reap], t)
  else
    (calls ++ [OsCall.reap], t)

/-- Stage 3 of the stop ladder (lines 474-502): terminate unless bit 4 is set,
then poll up to `app_stop_method_threads` ms; an observed exit returns early
(the probe has reaped the child). -/
def stop_stage3 (config : ServiceConfig) (running : Nat → Bool)
    (calls : List OsCall) (t : Nat) : List OsCall × Nat :=
  if config.app_stop_method_skip &&& 4 = 0 then
    let p := poll_wait running config.app_stop_method_threads t
    if p.1 then stop_stage4 config (calls ++ [OsCall.terminate]) (t + p.2)
    else (calls ++ [OsCall.terminate, OsCall.reap], t + p.2)
  else
    stop_stage4 config calls t

/-- Stage 2 of the stop ladder (lines 429-472): post `WM_CLOSE` unless bit 2 is
set, then poll up to `app_stop_method_window` ms. -/
def stop_stage2 (config : ServiceConfig) (running : Nat → Bool)
    (calls : List OsCall) (t : Nat) : List OsCall × Nat :=
  if config.app_stop_method_skip &&& 2 = 0 then
    let p := poll_wait running config.app_stop_method_window t
    if p.1 then stop_stage3 config running (calls ++ [OsCall.wmClose]) (t + p.2)
    else (calls ++ [OsCall.wmClose, OsCall.reap], t + p.2)
  else
    stop_stage3 config running calls t

/-- Mirrors `stop_child_process` (`src/service_runner.rs` lines 388-515):
stage 1 sends Ctrl-C unless `app_no_console` or bit 1 of the skip mask, then
polls up to `app_stop_method_console` ms; the later stages follow.  Returns the
OS calls performed (including the reap) and the total polled wait time in ms. -/
def stop_child_process (config : ServiceConfig) (running : Nat → Bool) :
    List OsCall × Nat :=
  if config.app_no_console = false ∧ config.app_stop_method_skip &&& 1 = 0 then
    let p := poll_wait running config.app_stop_method_console 0
    if p.1 then stop_stage2 config running [OsCall.ctrlC] p.2
    else ([OsCall.ctrlC, OsCall.reap], p.2)
  else
    stop_stage2 config running [] 0

/-! ## Child environment (`src/service_runner.rs` lines 199-204) -/

/-- Rust's `str::split_once('=')` on the remaining characters, carrying the
prefix scanned so far: splits at the first `'='`, `none` when there is none. -/
def split_once_go : List Char → List Char → Option (List Char × List Char)
  | [], _ => none
  | c :: rest, acc => if c = '=' then some (acc, rest) else split_once_go rest (acc ++ [c])

/-- Rust's `env_var.split_once('=')`. -/
def split_once (s : List Char) : Option (List Char × List Char) :=
  split_once_go s []

/-- Mirrors the loop in lines 200-204: each entry of `app_environment_extra`
that splits at `'='` contributes a `cmd.env(key, value)` pair, in order; an
entry without `'='` contributes nothing. -/
def build_env_extra (vars : List (List Char)) : List (List Char × List Char) :=
  vars.filterMap split_once

/-! ## Theorems -/

/-- The source scanner agrees, state by state, with the spec-described scanner
followed by dropping empty tokens. -/
theorem parse_go_agrees_spec (input : List Char) :
    ∀ (in_quotes : Bool) (current : List Char) (args : List (List Char)),
    parse_command_line_go input in_quotes current (args.filter (fun t => !t.isEmpty)) =
      (parse_command_line_spec_go input in_quotes current args).filter (fun t => !t.isEmpty) := by
  induction input with
  | nil =>
    intro in_quotes current args
    simp only [parse_command_line_go, parse_command_line_spec_go, List.filter_append]
    cases current <;> simp
  | cons c rest ih =>
    intro in_quotes current args
    by_cases hq : c = '"'
    · have h := ih (!in_quotes) current args
      simpa [parse_command_line_go, parse_command_line_spec_go, hq] using h
    · by_cases hs : c = ' ' ∨ c = '\t'
      · cases in_quotes with
        | true =>
          have h := ih true (current ++ [c]) args
          simpa [parse_command_line_go, parse_command_line_spec_go, hq, hs] using h
        | false =>
          by_cases hc : current = []
          · have h := ih false [] (args ++ [current])
            have h1 : (args ++ [current]).filter (fun t => !t.isEmpty) =
                args.filter (fun t => !t.isEmpty) := by
              subst hc; simp [List.filter_append]
            rw [h1] at h
            simpa [parse_command_line_go, parse_command_line_spec_go, hq, hs, hc] using h
          · have h := ih false [] (args ++ [current])
            have h1 : (args ++ [current]).filter (fun t => !t.isEmpty) =
                args.filter (fun t => !t.isEmpty) ++ [current] := by
              simp [List.filter_append, hc]
            rw [h1] at h
            simpa [parse_command_line_go, parse_command_line_spec_go, hq, hs, hc] using h
      · have h := ih in_quotes (current ++ [c]) args
        simpa [parse_command_line_go, parse_command_line_spec_go, hq, hs] using h

/-- C5: the command-line split satisfies the spec's four example laws, and on
every input it computes exactly the spec-described left-to-right scan (quote
toggling, unquoted space/tab as separator, no backslash escaping, empty tokens
dropped). -/
theorem claim_C5_parse_command_line :
    parse_command_line "".data = [] ∧
    parse_command_line "a b".data = ["a".data, "b".data] ∧
    parse_command_line "\"a b\" c".data = ["a b".data, "c".data] ∧
    parse_command_line "  a  b  ".data = ["a".data, "b".data] ∧
    ∀ input : List Char, parse_command_line input = parse_command_line_from_spec input := by
  refine ⟨by decide, by decide, by decide, by decide, fun input => ?_⟩
  have h := parse_go_agrees_spec input false [] []
  simpa [parse_command_line, parse_command_line_from_spec] using h

/-- Invariant of the scanner: if every pushed token is non-empty and
quote-free and the accumulating token is quote-free, every result token is
non-empty and quote-free. -/
theorem parse_go_tokens (input : List Char) :
    ∀ (in_quotes : Bool) (current : List Char) (args : List (List Char)),
    (∀ t ∈ args, t ≠ [] ∧ '"' ∉ t) → '"' ∉ current →
    ∀ t ∈ parse_command_line_go input in_quotes current args, t ≠ [] ∧ '"' ∉ t := by
  induction input with
  | nil =>
    intro in_quotes current args hargs hcur t ht
    simp only [parse_command_line_go] at ht
    by_cases hc : current = []
    · rw [if_pos hc] at ht; exact hargs t ht
    · rw [if_neg hc] at ht
      rcases List.mem_append.mp ht with h | h
      · exact hargs t h
      · rcases List.mem_singleton.mp h with rfl
        exact ⟨hc, hcur⟩
  | cons c rest ih =>
    intro in_quotes current args hargs hcur t ht
    by_cases hq : c = '"'
    · rw [parse_command_line_go, if_pos hq] at ht
      exact ih (!in_quotes) current args hargs hcur t ht
    · have hnc : '"' ∉ current ++ [c] := by
        intro h
        rcases List.mem_append.mp h with h | h
        · exact hcur h
        · exact hq (List.mem_singleton.mp h).symm
      by_cases hs : c = ' ' ∨ c = '\t'
      · rw [parse_command_line_go, if_neg hq, if_pos hs] at ht
        cases in_quotes with
        | true =>
          rw [if_pos rfl] at ht
          exact ih true (current ++ [c]) args hargs hnc t ht
        | false =>
          rw [if_neg (by simp)] at ht
          by_cases hc : current = []
          · rw [if_pos hc] at ht
            exact ih false [] args hargs (by simp) t ht
          · rw [if_neg hc] at ht
            refine ih false [] (args ++ [current]) ?_ (by simp) t ht
            intro u hu
            rcases List.mem_append.mp hu with h | h
            · exact hargs u h
            · rcases List.mem_singleton.mp h with rfl
              exact ⟨hc, hcur⟩
      · rw [parse_command_line_go, if_neg hq, if_neg hs] at ht
        exact ih in_quotes (current ++ [c]) args hargs hnc t ht

/-- C9: no token produced by the command-line split is empty or contains a
double quote; an unterminated quote is not an error, the quoted region simply
extends to the end of the input. -/
theorem claim_C9_token_invariants :
    (∀ (input : List Char), ∀ t ∈ parse_command_line input, t ≠ [] ∧ '"' ∉ t) ∧
    parse_command_line "\"a b".data = ["a b".data] := by
  refine ⟨fun input t ht => ?_, by decide⟩
  exact parse_go_tokens input false [] [] (by simp) (by simp) t ht

/-- Witness for C9 at a concrete input: the quote in the middle of `a"b` is
removed and a single non-empty token results. -/
theorem claim_C9_token_invariants_witness :
    ("ab".data ∈ parse_command_line "a\"b".data) ∧
    ("ab".data ≠ [] ∧ '"' ∉ "ab".data) :=
  ⟨by decide, claim_C9_token_invariants.1 "a\"b".data "ab".data (by decide)⟩

/-- C4: the throttle rule of the restart policy.  A healthy run (uptime at
least `app_throttle`) resets the failure counter and delays by
`app_restart_delay`; an unhealthy run increments the counter and delays by
`min(2^min(counter,8)·1000, 256000)`; consequently every computed delay is
either `app_restart_delay` or `1000·2^k` for some `k ∈ 1..8`, and never
exceeds 256000 in the latter case. -/
theorem claim_C4_throttle_rule (config : ServiceConfig) (cf u : Nat) :
    (config.app_throttle ≤ u →
      throttle_update config cf u = (0, config.app_restart_delay)) ∧
    (u < config.app_throttle →
      throttle_update config cf u = (cf + 1, min (2 ^ min (cf + 1) 8 * 1000) 256000)) ∧
    ((throttle_update config cf u).2 = config.app_restart_delay ∨
      ∃ k, 1 ≤ k ∧ k ≤ 8 ∧ (throttle_update config cf u).2 = 2 ^ k * 1000 ∧
        (throttle_update config cf u).2 ≤ 256000) := by
  refine ⟨fun h => by simp [throttle_update, Nat.not_lt.mpr h], fun h => by simp [throttle_update, h], ?_⟩
  by_cases h : u < config.app_throttle
  · right
    have hk1 : 1 ≤ min (cf + 1) 8 := le_min (Nat.succ_le_succ (Nat.zero_le _)) (by norm_num)
    have hle : 2 ^ min (cf + 1) 8 * 1000 ≤ 256000 := by
      have h2 : (2 : Nat) ^ min (cf + 1) 8 ≤ 2 ^ 8 :=
        Nat.pow_le_pow_right (by norm_num) (min_le_right _ _)
      calc 2 ^ min (cf + 1) 8 * 1000 ≤ 2 ^ 8 * 1000 := Nat.mul_le_mul_right _ h2
        _ = 256000 := by norm_num
    refine ⟨min (cf + 1) 8, hk1, min_le_right _ _, ?_, ?_⟩
    · simp [throttle_update, h, Nat.min_eq_left hle]
    · simp [throttle_update, h]
  · left
    simp [throttle_update, h]

/-- Witness for C4 at concrete inputs: a 2000 ms run against the default
1500 ms throttle is healthy, so the counter resets and the delay is the
default restart delay. -/
theorem claim_C4_throttle_rule_witness :
    default_config.app_throttle ≤ 2000 ∧
    throttle_update default_config 0 2000 = (0, default_config.app_restart_delay) :=
  ⟨by decide, (claim_C4_throttle_rule default_config 0 2000).1 (by decide)⟩

/-- `split_once` finds no pair when the entry has no `'='`. -/
theorem split_once_go_eq_none (s : List Char) :
    ∀ acc, '=' ∉ s → split_once_go s acc = none := by
  induction s with
  | nil => intro acc _; rfl
  | cons c rest ih =>
    intro acc hs
    have hc : ¬(c = '=') := fun h => hs (by simp [h])
    rw [split_once_go, if_neg hc]
    exact ih _ (fun h => hs (List.mem_cons_of_mem _ h))

/-- `split_once` splits at the first `'='`. -/
theorem split_once_go_first (key : List Char) :
    ∀ acc rest, '=' ∉ key →
    split_once_go (key ++ '=' :: rest) acc = some (acc ++ key, rest) := by
  induction key with
  | nil => intro acc rest _; simp [split_once_go]
  | cons c k ih =>
    intro acc rest hk
    have hc : ¬(c = '=') := fun h => hk (by simp [h])
    rw [List.cons_append, split_once_go, if_neg hc, ih (acc ++ [c]) rest
      (fun h => hk (List.mem_cons_of_mem _ h))]
    simp

/-- C10: an `app_environment_extra` entry without `'='` contributes no
environment pair and is silently dropped, leaving the pairs produced by the
other entries unchanged; an entry with `'='` is split at its first `'='`. -/
theorem claim_C10_env_extra :
    (∀ v : List Char, '=' ∉ v → split_once v = none) ∧
    (∀ (pre post : List (List Char)) (v : List Char), '=' ∉ v →
      build_env_extra (pre ++ v :: post) = build_env_extra (pre ++ post)) ∧
    (∀ (key rest : List Char), '=' ∉ key →
      split_once (key ++ '=' :: rest) = some (key, rest)) := by
  refine ⟨fun v hv => split_once_go_eq_none v [] hv, ?_, ?_⟩
  · intro pre post v hv
    simp [build_env_extra, List.filterMap_append, List.filterMap_cons,
      split_once_go_eq_none v [] hv, split_once]
  · intro key rest hk
    simpa using split_once_go_first key [] rest hk

/-- Witness for C10 at concrete inputs: `PATH` (no `'='`) yields no pair and
is dropped; `A=b=c` splits at the first `'='`. -/
theorem claim_C10_env_extra_witness :
    ('=' ∉ "PATH".data ∧ split_once "PATH".data = none) ∧
    build_env_extra ["A=1".data, "PATH".data, "B=2".data] =
      build_env_extra ["A=1".data, "B=2".data] :=
  ⟨⟨by decide, claim_C10_env_extra.1 "PATH".data (by decide)⟩,
    claim_C10_env_extra.2.1 ["A=1".data] ["B=2".data] "PATH".data (by decide)⟩

/-- Classification of iterations that leave the loop with reason
`shutdownMonitoring`: only the shutdown-while-monitoring branch does, it sets
the code to `NO_ERROR`, and its observations end with the `StopPending`
publication followed by the reap. -/
theorem loopIter_shutdown_monitoring (config : ServiceConfig) (st : SupState) (step : Step)
    (c : SvcExitCode) (obs : List Obs)
    (h : loopIter config st step = .stopped .shutdownMonitoring c obs) :
    c = .noError ∧ obs = spawn_obs config ++ [Obs.publishStopPending, Obs.reapChild] := by
  cases hra : st.restart_after with
  | none =>
    cases step <;> simp only [loopIter, hra, loopBody] at h
    case shutdown =>
      injection h with h1 h2 h3
      exact ⟨h2.symm, h3.symm⟩
    case childExit code u =>
      split at h <;> simp at h
    case childTerm => simp at h
    case spawnFail => simp at h
    case probeErr => simp at h
  | some d =>
    cases step <;> simp only [loopIter, hra, loopBody] at h
    case shutdown => simp at h
    case childExit code u =>
      split at h <;> simp at h
    case childTerm => simp at h
    case spawnFail => simp at h
    case probeErr => simp at h

/-- Classification of iterations that leave the loop with reason `noRestart`:
only the child-exited-no-restart branch does, and its observations end with
the reap. -/
theorem loopIter_no_restart (config : ServiceConfig) (st : SupState) (step : Step)
    (c : SvcExitCode) (obs : List Obs)
    (h : loopIter config st step = .stopped .noRestart c obs) :
    obs = spawn_obs config ++ [Obs.reapChild] := by
  cases hra : st.restart_after with
  | none =>
    cases step <;> simp only [loopIter, hra, loopBody] at h
    case shutdown => simp at h
    case childExit code u =>
      split at h
      · simp at h
      · injection h with h1 h2 h3
        exact h3.symm
    case childTerm => simp at h
    case spawnFail => simp at h
    case probeErr => simp at h
  | some d =>
    cases step <;> simp only [loopIter, hra, loopBody] at h
    case shutdown => simp at h
    case childExit code u =>
      split at h
      · simp at h
      · injection h with h1 h2 h3
        exact h3.symm
    case childTerm => simp at h
    case spawnFail => simp at h
    case probeErr => simp at h

/-- If the loop stops within the script, its trace ends with the observations
of the stopping iteration. -/
theorem runLoop_stopped_trace (config : ServiceConfig) :
    ∀ (script : List Step) (st : SupState) (r : ExitReason) (c : SvcExitCode),
    (runLoop config st script).2 = some (r, c) →
    ∃ pre st' step obs, loopIter config st' step = .stopped r c obs ∧
      (runLoop config st script).1 = pre ++ obs := by
  intro script
  induction script with
  | nil => intro st r c h; simp [runLoop] at h
  | cons step rest ih =>
    intro st r c h
    cases hlt : loopIter config st step with
    | next st2 obs =>
      rw [runLoop, hlt] at h
      simp only at h
      obtain ⟨pre, st', stp, obs', heq, htr⟩ := ih st2 r c h
      refine ⟨obs ++ pre, st', stp, obs', heq, ?_⟩
      rw [runLoop, hlt]
      simp [htr]
    | stopped r' c' obs =>
      rw [runLoop, hlt] at h
      simp only [Option.some.injEq, Prod.mk.injEq] at h
      refine ⟨[], st, step, obs, ?_, ?_⟩
      · rw [hlt, h.1, h.2]
      · rw [runLoop, hlt]
        simp

/-- The final pair returned by `run_service_main` is the loop's. -/
theorem run_service_main_snd (config : ServiceConfig) (script : List Step) :
    (run_service_main config script).2 = (runLoop config ⟨none, 0, .noError⟩ script).2 := by
  rw [run_service_main]
  cases h : (runLoop config ⟨none, 0, SvcExitCode.noError⟩ script).2 with
  | none => simp [h]
  | some rc => cases rc; simp [h]

/-- C1 (amended): a shutdown observed while a child is being monitored ends
the invocation with `NO_ERROR`; a shutdown observed during a restart-delay
backoff cancels the restart but leaves `service_exit_code` at the value set by
the last child exit, so the published code is `NO_ERROR` only if that value
was `NO_ERROR`. -/
theorem claim_C1_shutdown_exit_code (config : ServiceConfig) :
    (∀ (script : List Step) (c : SvcExitCode),
      (run_service_main config script).2 = some (.shutdownMonitoring, c) →
      c = .noError) ∧
    (∀ (st : SupState) (d : Nat), st.restart_after = some d →
      loopIter config st .shutdown = .stopped .shutdownBackoff st.service_exit_code []) := by
  constructor
  · intro script c h
    rw [run_service_main_snd] at h
    obtain ⟨pre, st', stp, obs, heq, _⟩ :=
      runLoop_stopped_trace config script ⟨none, 0, .noError⟩ .shutdownMonitoring c h
    exact (loopIter_shutdown_monitoring config st' stp c obs heq).1
  · intro st d hd
    simp [loopIter, hd]

/-- Witness for C1 (amended) at a concrete run: a shutdown in the first
monitoring iteration of the default configuration ends with `NO_ERROR`. -/
theorem claim_C1_shutdown_exit_code_witness :
    (run_service_main default_config [Step.shutdown]).2 =
      some (ExitReason.shutdownMonitoring, SvcExitCode.noError) ∧
    SvcExitCode.noError = SvcExitCode.noError :=
  ⟨by decide,
    (claim_C1_shutdown_exit_code default_config).1 [Step.shutdown] SvcExitCode.noError (by decide)⟩

/-- Counterexample to C1 as stated: under the default configuration (exit
action Restart, throttle 1500 ms), a child that exits with code 1 after 0 ms
schedules a 2000 ms backoff; a shutdown arriving during that backoff leaves
the loop, and the published code is `ServiceSpecific(1)`, not `NO_ERROR`. -/
theorem claim_C1_counterexample :
    (run_service_main default_config [Step.childExit 1 0, Step.shutdown]).2 =
      some (ExitReason.shutdownBackoff, SvcExitCode.serviceSpecific 1) ∧
    SvcExitCode.serviceSpecific 1 ≠ SvcExitCode.noError :=
  ⟨by decide, by decide⟩

/-- C2 (amended): when the loop is left because of a shutdown received while
monitoring, the trace ends `StopPending`, reap, `Stopped` — so `Stopped` is
published after the last child has been reaped; likewise on a
policy-not-restart exit the reap precedes `Stopped`.  (The tailer threads,
however, are joined only by iterations that continue with a restart; see the
counterexample.) -/
theorem claim_C2_stopped_ordering (config : ServiceConfig) (script : List Step)
    (c : SvcExitCode) :
    ((run_service_main config script).2 = some (.shutdownMonitoring, c) →
      ∃ pre, (run_service_main config script).1 =
        pre ++ [Obs.publishStopPending, Obs.reapChild, Obs.publishStopped c]) ∧
    ((run_service_main config script).2 = some (.noRestart, c) →
      ∃ pre, (run_service_main config script).1 =
        pre ++ [Obs.reapChild, Obs.publishStopped c]) := by
  constructor
  · intro h
    have h2 := h
    rw [run_service_main_snd] at h2
    obtain ⟨pre, st', stp, obs, heq, htr⟩ :=
      runLoop_stopped_trace config script ⟨none, 0, .noError⟩ .shutdownMonitoring c h2
    obtain ⟨-, hobs⟩ := loopIter_shutdown_monitoring config st' stp c obs heq
    refine ⟨Obs.publishRunning :: pre ++ spawn_obs config, ?_⟩
    rw [run_service_main_snd] at h
    rw [run_service_main, h2]
    simp only [htr, hobs]
    simp
  · intro h
    have h2 := h
    rw [run_service_main_snd] at h2
    obtain ⟨pre, st', stp, obs, heq, htr⟩ :=
      runLoop_stopped_trace config script ⟨none, 0, .noError⟩ .noRestart c h2
    have hobs := loopIter_no_restart config st' stp c obs heq
    refine ⟨Obs.publishRunning :: pre ++ spawn_obs config, ?_⟩
    rw [run_service_main, h2]
    simp only [htr, hobs]
    simp

/-- The configuration used by the C2 counterexample and witness: stdout
redirection is configured, so the tailer threads are started. -/
def tailer_config : ServiceConfig := { default_config with app_stdout := some "out.log" }

/-- Witness for C2 (amended) at a concrete run: a shutdown in the first
monitoring iteration of `tailer_config`. -/
theorem claim_C2_stopped_ordering_witness :
    (run_service_main tailer_config [Step.shutdown]).2 =
      some (ExitReason.shutdownMonitoring, SvcExitCode.noError) ∧
    (∃ pre, (run_service_main tailer_config [Step.shutdown]).1 =
      pre ++ [Obs.publishStopPending, Obs.reapChild, Obs.publishStopped SvcExitCode.noError]) :=
  ⟨by decide,
    (claim_C2_stopped_ordering tailer_config [Step.shutdown] SvcExitCode.noError).1 (by decide)⟩

/-- Counterexample to C2 as stated: with stdout redirection configured the
tailer threads are started, but on the shutdown path the loop is left with
`break 'outer`, which skips the join code; `Stopped` is published with no
tailer join anywhere in the trace. -/
theorem claim_C2_counterexample :
    Obs.startTailers ∈ (run_service_main tailer_config [Step.shutdown]).1 ∧
    Obs.joinTailers ∉ (run_service_main tailer_config [Step.shutdown]).1 ∧
    Obs.publishStopped SvcExitCode.noError ∈ (run_service_main tailer_config [Step.shutdown]).1 :=
  ⟨by decide, by decide, by decide⟩

/-- C6: on a normal child exit with code `c` (in `u32` range), the service
exit code is set to `NO_ERROR` for `c = 0` and `ServiceSpecific(c)` otherwise;
if the exit action is `Ignore` or `Exit` the supervisor leaves the loop
without restarting, and if it is `Restart` the iteration continues with the
restart delay given by the throttle rule, independently of `c`. -/
theorem claim_C6_exit_action (config : ServiceConfig) (st : SupState) (c : Int) (u : Nat)
    (h0 : 0 ≤ c) (h32 : c < 4294967296) :
    ((config.app_exit_default = .Ignore ∨ config.app_exit_default = .Exit) →
      loopBody config st (.childExit c u) =
        .stopped .noRestart (if c = 0 then .noError else .serviceSpecific c.toNat)
          (spawn_obs config ++ [Obs.reapChild])) ∧
    (config.app_exit_default = .Restart →
      loopBody config st (.childExit c u) =
        .next
          { restart_after :=
              if 0 < (throttle_update config st.consecutive_failures u).2
              then some (throttle_update config st.consecutive_failures u).2 else none
            consecutive_failures := (throttle_update config st.consecutive_failures u).1
            service_exit_code := if c = 0 then .noError else .serviceSpecific c.toNat }
          (spawn_obs config ++ [Obs.reapChild] ++ join_obs config)) := by
  have hcode : exit_code_of c = if c = 0 then .noError else .serviceSpecific c.toNat := by
    rw [exit_code_of, u32_of_exit, Int.emod_eq_of_lt h0 h32]
  constructor
  · intro h
    rcases h with h | h <;> rw [loopBody] <;>
      simp [should_restart, h, hcode]
  · intro h
    rw [loopBody]
    simp [should_restart, h, hcode]

/-- Witness for C6 at concrete inputs: exit action `Ignore` with exit code 7
stops the loop with `ServiceSpecific(7)`. -/
theorem claim_C6_exit_action_witness :
    ((0 : Int) ≤ 7 ∧ (7 : Int) < 4294967296 ∧
      ({ default_config with app_exit_default := .Ignore } : ServiceConfig).app_exit_default
        = ExitAction.Ignore) ∧
    loopBody { default_config with app_exit_default := .Ignore } ⟨none, 0, .noError⟩
        (.childExit 7 0) =
      .stopped .noRestart
        (if (7 : Int) = 0 then .noError else .serviceSpecific (Int.toNat 7))
        (spawn_obs { default_config with app_exit_default := .Ignore } ++ [Obs.reapChild]) :=
  ⟨⟨by decide, by decide, rfl⟩,
    (claim_C6_exit_action { default_config with app_exit_default := .Ignore }
      ⟨none, 0, .noError⟩ 7 0 (by decide) (by decide)).1 (Or.inl rfl)⟩

/-- C3 (amended): the config loader fails exactly when the container key is
absent; with the key present — in particular when `Application` is missing or
empty — loading succeeds (the application path stays at its empty default),
and the supervision then begins by publishing `Running` before anything else. -/
theorem claim_C3_config_load (service_name : String) :
    (load_service_config service_name none =
      .error ("Failed to open registry key for service '" ++ service_name ++ "'")) ∧
    (∀ k : RegKey, load_service_config service_name (some k) = .ok (load_from_key k)) ∧
    (∀ (config : ServiceConfig) (script : List Step),
      (run_service_main config script).1.head? = some Obs.publishRunning) := by
  refine ⟨rfl, fun k => rfl, fun config script => ?_⟩
  rw [run_service_main]
  cases h : (runLoop config ⟨none, 0, SvcExitCode.noError⟩ script).2 with
  | none => simp [h]
  | some rc => cases rc; simp [h]

/-- Counterexample to C3 as stated: a persisted store whose container key
exists but holds no `Application` value loads successfully (no error), and the
run publishes `Running` before the spawn failure is diagnosed with
`ServiceSpecific(1)`. -/
theorem claim_C3_counterexample :
    load_service_config "svc" (some ([] : RegKey)) = .ok default_config ∧
    regFind ([] : RegKey) RegName.Application = none ∧
    service_main_model "svc" (some []) [Step.spawnFail] =
      .ok ([Obs.publishRunning, Obs.publishStopped (SvcExitCode.serviceSpecific 1)],
        some (ExitReason.spawnFailed, SvcExitCode.serviceSpecific 1)) :=
  ⟨rfl, rfl, rfl⟩

/-- Stage 4 only appends a kill and/or the reap. -/
theorem stop_stage4_mem (config : ServiceConfig) (calls : List OsCall) (t : Nat) (c : OsCall)
    (hc : c ∈ (stop_stage4 config calls t).1) :
    c ∈ calls ∨ c = OsCall.kill ∨ c = OsCall.reap := by
  rw [stop_stage4] at hc
  split at hc <;> simp at hc <;> tauto

/-- Stage 3 only appends terminate, kill and/or the reap. -/
theorem stop_stage3_mem (config : ServiceConfig) (running : Nat → Bool)
    (calls : List OsCall) (t : Nat) (c : OsCall)
    (hc : c ∈ (stop_stage3 config running calls t).1) :
    c ∈ calls ∨ c = OsCall.terminate ∨ c = OsCall.kill ∨ c = OsCall.reap := by
  simp only [stop_stage3] at hc
  split at hc
  · split at hc
    · rcases stop_stage4_mem _ _ _ _ hc with h | h | h
      · rcases List.mem_append.mp h with h | h
        · exact Or.inl h
        · simp at h; tauto
      · tauto
      · tauto
    · simp at hc; tauto
  · rcases stop_stage4_mem _ _ _ _ hc with h | h | h <;> tauto

/-- Stage 2 only appends window-close, terminate, kill and/or the reap. -/
theorem stop_stage2_mem (config : ServiceConfig) (running : Nat → Bool)
    (calls : List OsCall) (t : Nat) (c : OsCall)
    (hc : c ∈ (stop_stage2 config running calls t).1) :
    c ∈ calls ∨ c = OsCall.wmClose ∨ c = OsCall.terminate ∨ c = OsCall.kill ∨
      c = OsCall.reap := by
  simp only [stop_stage2] at hc
  split at hc
  · split at hc
    · rcases stop_stage3_mem _ _ _ _ _ hc with h | h | h | h
      · rcases List.mem_append.mp h with h | h
        · exact Or.inl h
        · simp at h; tauto
      · tauto
      · tauto
      · tauto
    · simp at hc; tauto
  · rcases stop_stage3_mem _ _ _ _ _ hc with h | h | h | h <;> tauto

/-- Stage 4 performs no polled wait at all: the elapsed time is unchanged. -/
theorem stop_stage4_time (config : ServiceConfig) (calls : List OsCall) (t : Nat) :
    (stop_stage4 config calls t).2 = t := by
  rw [stop_stage4]; split <;> rfl

/-- With bit 4 set, stage 3 consumes no time. -/
theorem stop_stage3_time_skip (config : ServiceConfig) (running : Nat → Bool)
    (calls : List OsCall) (t : Nat) (h4 : config.app_stop_method_skip &&& 4 ≠ 0) :
    (stop_stage3 config running calls t).2 = t := by
  rw [stop_stage3, if_neg h4, stop_stage4_time]

/-- With bits 2 and 4 set, stage 2 consumes no time. -/
theorem stop_stage2_time_skip (config : ServiceConfig) (running : Nat → Bool)
    (calls : List OsCall) (t : Nat) (h2 : config.app_stop_method_skip &&& 2 ≠ 0)
    (h4 : config.app_stop_method_skip &&& 4 ≠ 0) :
    (stop_stage2 config running calls t).2 = t := by
  rw [stop_stage2, if_neg h2, stop_stage3_time_skip _ _ _ _ h4]

/-- With bit 8 set, the kill call is never issued. -/
theorem stop_stage4_no_kill (config : ServiceConfig) (calls : List OsCall) (t : Nat)
    (h8 : config.app_stop_method_skip &&& 8 ≠ 0) (hc : OsCall.kill ∉ calls) :
    OsCall.kill ∉ (stop_stage4 config calls t).1 := by
  rw [stop_stage4, if_neg h8]
  simp [hc]

/-- Bit 8 propagated through stage 3. -/
theorem stop_stage3_no_kill (config : ServiceConfig) (running : Nat → Bool)
    (calls : List OsCall) (t : Nat)
    (h8 : config.app_stop_method_skip &&& 8 ≠ 0) (hc : OsCall.kill ∉ calls) :
    OsCall.kill ∉ (stop_stage3 config running calls t).1 := by
  simp only [stop_stage3]
  split
  · split
    · exact stop_stage4_no_kill _ _ _ h8 (by simp [hc])
    · simp [hc]
  · exact stop_stage4_no_kill _ _ _ h8 hc

/-- Bit 8 propagated through stage 2. -/
theorem stop_stage2_no_kill (config : ServiceConfig) (running : Nat → Bool)
    (calls : List OsCall) (t : Nat)
    (h8 : config.app_stop_method_skip &&& 8 ≠ 0) (hc : OsCall.kill ∉ calls) :
    OsCall.kill ∉ (stop_stage2 config running calls t).1 := by
  simp only [stop_stage2]
  split
  · split
    · exact stop_stage3_no_kill _ _ _ _ h8 (by simp [hc])
    · simp [hc]
  · exact stop_stage3_no_kill _ _ _ _ h8 hc

/-- With bit 4 set, the terminate call is never issued from stage 3 on. -/
theorem stop_stage3_no_terminate (config : ServiceConfig) (running : Nat → Bool)
    (calls : List OsCall) (t : Nat)
    (h4 : config.app_stop_method_skip &&& 4 ≠ 0) (hc : OsCall.terminate ∉ calls) :
    OsCall.terminate ∉ (stop_stage3 config running calls t).1 := by
  rw [stop_stage3, if_neg h4]
  intro h
  rcases stop_stage4_mem _ _ _ _ h with h | h | h
  · exact hc h
  · exact absurd h (by decide)
  · exact absurd h (by decide)

/-- Bit 4 propagated through stage 2. -/
theorem stop_stage2_no_terminate (config : ServiceConfig) (running : Nat → Bool)
    (calls : List OsCall) (t : Nat)
    (h4 : config.app_stop_method_skip &&& 4 ≠ 0) (hc : OsCall.terminate ∉ calls) :
    OsCall.terminate ∉ (stop_stage2 config running calls t).1 := by
  simp only [stop_stage2]
  split
  · split
    · exact stop_stage3_no_terminate _ _ _ _ h4 (by simp [hc])
    · simp [hc]
  · exact stop_stage3_no_terminate _ _ _ _ h4 hc

/-- With bit 2 set, the window-close call is never issued from stage 2 on. -/
theorem stop_stage2_no_wmClose (config : ServiceConfig) (running : Nat → Bool)
    (calls : List OsCall) (t : Nat)
    (h2 : config.app_stop_method_skip &&& 2 ≠ 0) (hc : OsCall.wmClose ∉ calls) :
    OsCall.wmClose ∉ (stop_stage2 config running calls t).1 := by
  rw [stop_stage2, if_neg h2]
  intro h
  rcases stop_stage3_mem _ _ _ _ _ h with h | h | h | h
  · exact hc h
  · exact absurd h (by decide)
  · exact absurd h (by decide)
  · exact absurd h (by decide)

/-- C7: a skip mask of 15 reduces the stop ladder to the bare reap with zero
polled wait; more generally each stage whose skip bit is set issues no OS call
(and the three polled stages, when all skipped, consume no wait time at all). -/
theorem claim_C7_stop_ladder_skip (config : ServiceConfig) (running : Nat → Bool) :
    (config.app_stop_method_skip = 15 →
      stop_child_process config running = ([OsCall.reap], 0)) ∧
    (config.app_stop_method_skip &&& 1 ≠ 0 →
      OsCall.ctrlC ∉ (stop_child_process config running).1) ∧
    (config.app_stop_method_skip &&& 2 ≠ 0 →
      OsCall.wmClose ∉ (stop_child_process config running).1) ∧
    (config.app_stop_method_skip &&& 4 ≠ 0 →
      OsCall.terminate ∉ (stop_child_process config running).1) ∧
    (config.app_stop_method_skip &&& 8 ≠ 0 →
      OsCall.kill ∉ (stop_child_process config running).1) ∧
    (config.app_stop_method_skip &&& 1 ≠ 0 ∧ config.app_stop_method_skip &&& 2 ≠ 0 ∧
        config.app_stop_method_skip &&& 4 ≠ 0 →
      (stop_child_process config running).2 = 0) := by
  refine ⟨?_, ?_, ?_, ?_, ?_, ?_⟩
  · intro h
    have h1 : config.app_stop_method_skip &&& 1 ≠ 0 := by rw [h]; decide
    have h2 : config.app_stop_method_skip &&& 2 ≠ 0 := by rw [h]; decide
    have h4 : config.app_stop_method_skip &&& 4 ≠ 0 := by rw [h]; decide
    have h8 : config.app_stop_method_skip &&& 8 ≠ 0 := by rw [h]; decide
    rw [stop_child_process, if_neg (fun hy => h1 hy.2),
      stop_stage2, if_neg h2, stop_stage3, if_neg h4, stop_stage4, if_neg h8]
    rfl
  · intro h1
    rw [stop_child_process, if_neg (fun hy => h1 hy.2)]
    intro h
    rcases stop_stage2_mem _ _ _ _ _ h with h | h | h | h | h
    · simp at h
    · exact absurd h (by decide)
    · exact absurd h (by decide)
    · exact absurd h (by decide)
    · exact absurd h (by decide)
  · intro h2
    simp only [stop_child_process]
    split
    · split
      · exact stop_stage2_no_wmClose _ _ _ _ h2 (by decide)
      · simp
    · exact stop_stage2_no_wmClose _ _ _ _ h2 (by decide)
  · intro h4
    simp only [stop_child_process]
    split
    · split
      · exact stop_stage2_no_terminate _ _ _ _ h4 (by decide)
      · simp
    · exact stop_stage2_no_terminate _ _ _ _ h4 (by decide)
  · intro h8
    simp only [stop_child_process]
    split
    · split
      · exact stop_stage2_no_kill _ _ _ _ h8 (by decide)
      · simp
    · exact stop_stage2_no_kill _ _ _ _ h8 (by decide)
  · rintro ⟨h1, h2, h4⟩
    rw [stop_child_process, if_neg (fun hy => h1 hy.2)]
    exact stop_stage2_time_skip _ _ _ _ h2 h4

/-- Witness for C7 at a concrete configuration: skip mask 15 with a child
that never stops on its own. -/
theorem claim_C7_stop_ladder_skip_witness :
    ({ default_config with app_stop_method_skip := 15 } : ServiceConfig).app_stop_method_skip
      = 15 ∧
    stop_child_process { default_config with app_stop_method_skip := 15 } (fun _ => true)
      = ([OsCall.reap], 0) :=
  ⟨rfl, (claim_C7_stop_ladder_skip { default_config with app_stop_method_skip := 15 }
    (fun _ => true)).1 rfl⟩

/-- Loading the persisted priority DWORD recovers the priority. -/
theorem priority_roundtrip (p : ProcessPriority) :
    priority_of_dword p.to_windows_value = p := by
  cases p <;> rfl

/-- Parsing the persisted exit-action string recovers the action. -/
theorem exit_action_roundtrip (a : ExitAction) :
    ExitAction.from_str a.to_str = some a := by
  cases a <;> decide

/-- Loading the persisted `AppNoConsole` DWORD recovers the flag. -/
theorem no_console_roundtrip (b : Bool) :
    decide ((if b = true then (1 : Nat) else 0) ≠ 0) = b := by
  cases b <;> rfl

/-- C8 (amended): persist-then-load is the identity on every field of the
configuration (the modelled record consists exactly of the fields in the
spec's section-6 table), provided no optional string field is
present-but-empty — a `Some("")` value is turned into `None` by the loader's
emptiness check; see the counterexample. -/
theorem claim_C8_round_trip (config : ServiceConfig)
    (hd : config.app_directory ≠ some "") (hp : config.app_parameters ≠ some "")
    (ho : config.app_stdout ≠ some "") (he : config.app_stderr ≠ some "")
    (hi : config.app_stdin ≠ some "") :
    load_from_key (save_service_config [] config) = config := by
  obtain ⟨app, dir, par, pri, nc, sk, sc, sw, sth, thr, ea, rd, so, se, si⟩ := config
  simp only [ne_eq] at hd hp ho he hi
  cases dir <;> cases par <;> cases so <;> cases se <;> cases si <;>
    (simp [save_service_config, regSet, load_from_key, get_registry_string,
      get_registry_dword, regFind, priority_roundtrip, exit_action_roundtrip,
      no_console_roundtrip, default_config, hd, hp, ho, he, hi] <;> simp_all)

/-- A concrete configuration exercising every persisted field with non-default
values. -/
def round_trip_config : ServiceConfig :=
  { application := "C:/srv/app.exe"
    app_directory := some "C:/srv"
    app_parameters := some "-p 1"
    app_priority := .High
    app_no_console := true
    app_stop_method_skip := 5
    app_stop_method_console := 100
    app_stop_method_window := 200
    app_stop_method_threads := 300
    app_throttle := 4000
    app_exit_default := .Ignore
    app_restart_delay := 7
    app_stdout := some "C:/srv/out.log"
    app_stderr := some "C:/srv/err.log"
    app_stdin := some "C:/srv/in.txt" }

/-- Witness for C8 (amended) at a concrete configuration. -/
theorem claim_C8_round_trip_witness :
    (round_trip_config.app_directory ≠ some "" ∧
      round_trip_config.app_parameters ≠ some "" ∧
      round_trip_config.app_stdout ≠ some "" ∧
      round_trip_config.app_stderr ≠ some "" ∧
      round_trip_config.app_stdin ≠ some "") ∧
    load_from_key (save_service_config [] round_trip_config) = round_trip_config :=
  ⟨⟨by decide, by decide, by decide, by decide, by decide⟩,
    claim_C8_round_trip round_trip_config (by decide) (by decide) (by decide)
      (by decide) (by decide)⟩

/-- Counterexample to C8 as stated: a configuration whose `AppParameters`
field is present but empty saves as the empty string, and the loader's
emptiness check turns it back into `None`, so persist-then-load is not the
identity on that field. -/
theorem claim_C8_counterexample :
    (load_from_key (save_service_config []
        { default_config with app_parameters := some "" })).app_parameters = none ∧
    ({ default_config with app_parameters := some "" } : ServiceConfig).app_parameters
      = some "" ∧
    (some "" : Option String) ≠ none :=
  ⟨by decide, rfl, by decide⟩

end NssmRs
